import Mathlib

/-!
Shallow embedding of the adaptive interview question-queue engine and its
chunked preprocessing pipeline (Calibr AI recruitment platform).

Sources embedded:
- `src/utils/interview.ts` : `Question`, `Queues`, `randomizeQueue1`,
  `evaluateAnswer`, `EvaluationResult`.
- `src/app/assessment/technical-interview/actions.ts` : `analyzeAnswer`,
  `addAskedQuestion`, `updateAskedQuestionAnswer`, `markChunkPreprocessed`.
- `src/lib/interview/simpleChunkManager.ts` : `interleaveQueues`,
  `splitIntoChunks`.
- the chunk-preprocessing client component (`preprocessChunk` and its
  trigger condition).

External effects (Gemini model calls, TTS, Math.random) are modelled as
explicit oracle parameters: a model call's observable outcome (failure,
reply without a JSON body, reply whose JSON body does not parse, or a
parsed payload) is passed in as data, and the Math.random-driven
Fisher-Yates shuffle is passed in as a permutation-producing function.
JavaScript truthiness of optional strings (undefined and the empty string
are both falsy) is modelled explicitly by `truthyS`.
-/

namespace Calibr

/-- Question record, from the `Question` interface in `src/utils/interview.ts`,
together with the fields (`parentQuestionId`, `queueType`) that the routing
code in `actions.ts` adds dynamically to queue-2 entries. -/
structure Question where
  id : String
  question : String
  category : String
  difficulty : Option String := none
  answer : Option String := none
  parentQuestion : Option String := none
  parentQuestionId : Option String := none
  topicId : Option String := none
  queueType : Option String := none
deriving Repr, DecidableEq

/-- The three ordered queues held by the engine (`Queues` in
`src/utils/interview.ts`; the optional video-processing `queue0` carries no
questions and is not modelled). -/
structure Queues where
  queue1 : List Question
  queue2 : List Question
  queue3 : List Question
deriving Repr, DecidableEq

/-- JavaScript truthiness of an optional string: `undefined` and the empty
string are falsy, every other string is truthy. -/
def truthyS (o : Option String) : Bool :=
  match o with
  | none => false
  | some s => !s.isEmpty

/-- The blank test `!s || s.trim().length === 0`: the string has no
non-whitespace character (`trim` removes exactly the surrounding
whitespace, so trimming to length 0 means every character is whitespace;
the empty string is also falsy on its own). -/
def isBlank (s : String) : Bool :=
  s.data.all (fun c => c.isWhitespace)

/-! ## simpleChunkManager.ts -/

/-- Chunk record, from `ChunkData` in `src/lib/interview/simpleChunkManager.ts`. -/
structure ChunkData where
  chunkNumber : Nat
  questions : List Question
deriving Repr, DecidableEq

/-- Append a queue-2 question to the entry of the follow-up map holding its
topic, creating the entry at the end when absent (`followUpMap.get(t)!.push(q2)`
respectively `followUpMap.set(t, [])` in `interleaveQueues`). -/
def addToMap : List (String × List Question) → String → Question → List (String × List Question)
  | [], t, q => [(t, [q])]
  | (k, v) :: rest, t, q =>
    if k = t then (k, v ++ [q]) :: rest else (k, v) :: addToMap rest t q

/-- Lookup in the follow-up map (`followUpMap.get` / `followUpMap.has`). -/
def lookupMap : List (String × List Question) → String → Option (List Question)
  | [], _ => none
  | (k, v) :: rest, t => if k = t then some v else lookupMap rest t

/-- One iteration of the grouping loop of `interleaveQueues`: a queue-2
question with a truthy `topicId` is appended to its topic's map entry,
any other is skipped (`if (q2.topicId) \x7b ... \x7d`). -/
def addIfTopical (m : List (String × List Question)) (q : Question) :
    List (String × List Question) :=
  if truthyS q.topicId then addToMap m (q.topicId.getD "") q else m

/-- Build the follow-up map: group queue-2 questions by their (truthy)
`topicId`, in queue order (first loop of `interleaveQueues`). -/
def buildFollowUpMap (queue2 : List Question) : List (String × List Question) :=
  queue2.foldl addIfTopical []

/-- Follow-ups attached after one queue-1 question
(`if (q1.topicId && followUpMap.has(q1.topicId))` in `interleaveQueues`;
a missing map entry contributes nothing). -/
def followUpsFor (m : List (String × List Question)) (q1 : Question) : List Question :=
  if truthyS q1.topicId then (lookupMap m (q1.topicId.getD "")).getD [] else []

/-- `interleaveQueues` from `src/lib/interview/simpleChunkManager.ts`: each
queue-1 question is emitted followed by its grouped queue-2 follow-ups. -/
def interleaveQueues (queue1 queue2 : List Question) : List Question :=
  let m := buildFollowUpMap queue2
  queue1.foldr (fun q1 acc => q1 :: followUpsFor m q1 ++ acc) []

/-- `splitIntoChunks` from `src/lib/interview/simpleChunkManager.ts`:
`Math.ceil(n / chunkSize)` chunks, chunk `i` holding
`questions.slice(i*chunkSize, min((i+1)*chunkSize, n))`. -/
def splitIntoChunks (questions : List Question) (chunkSize : Nat) : List ChunkData :=
  let totalChunks := (questions.length + chunkSize - 1) / chunkSize
  (List.range totalChunks).map
    (fun i => { chunkNumber := i, questions := (questions.drop (i * chunkSize)).take chunkSize })

/-! ## utils/interview.ts : answer grading (`evaluateAnswer`) -/

/-- Evaluation record, from `EvaluationResult` in `src/utils/interview.ts`.
The `route_action` is whatever string the model reported (the TypeScript
union is not enforced at runtime), `reason` may be absent. -/
structure EvaluationResult where
  score : Int
  route_action : String
  sources : List String
  ideal_answer : String
  reason : Option String := none
deriving Repr, DecidableEq

/-- Observable outcome of one Gemini grading call followed by the
`match(/\x7b[\s\S]*\x7d/)` extraction and `JSON.parse`:
`err` = `callGeminiAPI` returned a falsy result (the call threw or the
reply was empty); `noJson` = a reply with no brace-delimited substring;
`badJson` = a brace-delimited substring that `JSON.parse` rejects (the
exception escapes to the enclosing `catch`); `parsed` = a parsed JSON
object with its (possibly absent) `correctness`, `route_action` and
`reason` fields. -/
inductive GradeReply where
  | err : GradeReply
  | noJson : GradeReply
  | badJson : GradeReply
  | parsed (correctness : Option Int) (route_action : Option String) (reason : Option String) : GradeReply
deriving Repr, DecidableEq

/-- JavaScript `x || d` on an optional number: `undefined` and `0` fall back
to the default (`analysis.correctness || 50`). -/
def jsOrInt (o : Option Int) (d : Int) : Int :=
  match o with
  | some v => if v = 0 then d else v
  | none => d

/-- JavaScript `x || d` on an optional string: `undefined` and `""` fall
back to the default (`analysis.route_action || "normal_flow"`). -/
def jsOrStr (o : Option String) (d : String) : String :=
  match o with
  | some s => if s.isEmpty then d else s
  | none => d

/-- Resolution of the ideal answer and sources at the top of
`evaluateAnswer`: keep a truthy supplied `idealAnswer` (sources default to
`[]`), otherwise use the on-demand `generateIdealAnswer` result when that
call succeeded, otherwise substitute the placeholder. `genIdeal` is the
oracle outcome of `generateIdealAnswer` (answer text and source URLs, or
`none` on any failure). -/
def resolveIdeal (idealAnswer : Option String) (sourceUrls : Option (List String))
    (genIdeal : Option (String × List String)) : String × List String :=
  let initialSources := sourceUrls.getD []
  if truthyS idealAnswer then (idealAnswer.getD "", initialSources)
  else
    match genIdeal with
    | some (a, s) => (a, s)
    | none => ("No ideal answer available", initialSources)

/-- `evaluateAnswer` from `src/utils/interview.ts`, with the two model calls
replaced by their oracle outcomes `genIdeal` (reference-answer generation)
and `reply` (the grading call). Returns `none` exactly where the source
returns `null` (its outer `catch`, reached when `JSON.parse` throws on the
extracted brace substring). -/
def evaluateAnswer (idealAnswer : Option String) (sourceUrls : Option (List String))
    (genIdeal : Option (String × List String)) (reply : GradeReply) :
    Option EvaluationResult :=
  let fi := resolveIdeal idealAnswer sourceUrls genIdeal
  match reply with
  | .err =>
    some { score := 50, route_action := "normal_flow", sources := fi.2,
           ideal_answer := fi.1, reason := some "Unable to evaluate" }
  | .noJson =>
    some { score := 50, route_action := "normal_flow", sources := fi.2,
           ideal_answer := fi.1, reason := none }
  | .badJson => none
  | .parsed c ra re =>
    some { score := jsOrInt c 50, route_action := jsOrStr ra "normal_flow",
           sources := fi.2, ideal_answer := fi.1, reason := re }

/-! ## actions.ts : `analyzeAnswer` routing -/

/-- Outcome of the follow-up (remediation) generation call in the
`followup` branch of `analyzeAnswer`: the parsed payload is the generated
question text. -/
inductive FollowupReply where
  | err : FollowupReply
  | noJson : FollowupReply
  | badJson : FollowupReply
  | parsed (question : String) : FollowupReply
deriving Repr, DecidableEq

/-- Outcome of the queue-2 generation call in the `next_difficulty` branch
of `analyzeAnswer`: the parsed payload is the JSON array of generated
questions (arbitrary question records, as produced by `JSON.parse`). -/
inductive Q2Reply where
  | err : Q2Reply
  | noJson : Q2Reply
  | badJson : Q2Reply
  | parsed (questions : List Question) : Q2Reply
deriving Repr, DecidableEq

/-- Tag the generated queue-2 questions, in order, with the topic, the
parent question id, a fresh id and `queueType: 'Q2'`
(`{...q2, topicId, parentQuestionId: currentQuestion.id, id: generateId(), queueType: 'Q2'}`).
The fresh ids produced by `generateId()` are consumed from `ids`. -/
def tagQ2 (topicId parentId : String) : List String → List Question → List Question
  | _, [] => []
  | ids, g :: gs =>
    { g with topicId := some topicId, parentQuestionId := some parentId,
             id := ids.headD "", queueType := some "Q2" } :: tagQ2 topicId parentId ids.tail gs

/-- Result record of `analyzeAnswer`: all three fields are optional, the
empty record `{}` is returned on the skip paths. -/
structure AnalyzeResult where
  updatedQueues : Option Queues := none
  correctness : Option Int := none
  evaluation : Option EvaluationResult := none
deriving Repr, DecidableEq

/-- `analyzeAnswer` from
`src/app/assessment/technical-interview/actions.ts` (identical copy in the
unnamed client source). The `evaluateAnswer` call outcome, the follow-up
generation outcome, the queue-2 generation outcome and the stream of
`generateId()` results are passed as oracle data. -/
def analyzeAnswer (correctAnswer userAnswer : String) (currentQueues : Queues)
    (currentQuestion : Question) (evaluation : Option EvaluationResult)
    (followupReply : FollowupReply) (q2Reply : Q2Reply) (ids : List String) :
    AnalyzeResult :=
  if isBlank correctAnswer || isBlank userAnswer then {}
  else
    match evaluation with
    | none => {}
    | some ev =>
      let correctness := ev.score
      if ev.route_action = "followup" ∨ correctness ≤ 10 then
        match followupReply with
        | .parsed fq =>
          let entry : Question :=
            { id := ids.headD "", question := fq, category := "followup",
              parentQuestion := some currentQuestion.id,
              topicId := currentQuestion.topicId }
          let queue3 := currentQueues.queue3 ++ [entry]
          let queue2 :=
            if truthyS currentQuestion.topicId then
              currentQueues.queue2.filter (fun q => q.topicId ≠ currentQuestion.topicId)
            else currentQueues.queue2
          { updatedQueues := some { currentQueues with queue2 := queue2, queue3 := queue3 },
            correctness := some correctness, evaluation := some ev }
        | _ =>
          { updatedQueues := some currentQueues, correctness := some correctness,
            evaluation := some ev }
      else if ev.route_action = "next_difficulty" ∨ correctness ≥ 50 then
        if currentQuestion.category = "technical" then
          let topicId :=
            if truthyS currentQuestion.topicId then currentQuestion.topicId.getD ""
            else currentQuestion.id
          let queue2base :=
            match q2Reply with
            | .parsed gs => currentQueues.queue2 ++ tagQ2 topicId currentQuestion.id ids gs
            | _ => currentQueues.queue2
          let queues1 : Queues := { currentQueues with queue2 := queue2base }
          let moved : Queues :=
            if !truthyS currentQuestion.difficulty then
              match queue2base.find? (fun q => q.topicId = some topicId ∧ q.difficulty = some "medium") with
              | some m =>
                { queues1 with queue2 := queue2base.filter (fun q => q.id ≠ m.id),
                               queue1 := m :: currentQueues.queue1 }
              | none => queues1
            else if currentQuestion.difficulty = some "medium" then
              match queue2base.find? (fun q => q.topicId = some topicId ∧ q.difficulty = some "hard") with
              | some h =>
                { queues1 with queue2 := queue2base.filter (fun q => q.id ≠ h.id),
                               queue1 := h :: currentQueues.queue1 }
              | none => queues1
            else queues1
          { updatedQueues := some moved, correctness := some correctness,
            evaluation := some ev }
        else
          { updatedQueues := some currentQueues, correctness := some correctness,
            evaluation := some ev }
      else
        { updatedQueues := some currentQueues, correctness := some correctness,
          evaluation := some ev }

/-! ## actions.ts : stored asked-questions list -/

/-- Stored asked-question entry, from the `question` parameter shape of
`addAskedQuestion` / the `askedQuestions` documents in
`src/app/assessment/technical-interview/actions.ts`. -/
structure AskedQuestion where
  id : String
  question : String
  category : String
  difficulty : Option String := none
  queueType : String
  parentQuestionId : Option String := none
  preprocessed : Bool := true
  answer : Option String := none
  source_urls : List String := []
  audioUrl : Option String := none
  userAnswer : Option String := none
  correctness : Option Int := none
deriving Repr, DecidableEq

/-- Update the first stored entry carrying the given id with the recorded
answer and correctness (the in-place mutation of the entry that
`evaluation.askedQuestions.find(...)` returned). -/
def updateFirst (l : List AskedQuestion) (qid ua : String) (c : Option Int) : List AskedQuestion :=
  match l with
  | [] => []
  | q :: rest =>
    if q.id = qid then { q with userAnswer := some ua, correctness := c } :: rest
    else q :: updateFirst rest qid ua c

/-- The low-score test `correctness !== undefined && correctness < 50`. -/
def lowScore (c : Option Int) : Bool :=
  match c with
  | some v => decide (v < 50)
  | none => false

/-- `updateAskedQuestionAnswer` from
`src/app/assessment/technical-interview/actions.ts`, acting on the stored
`askedQuestions` list: find the answered entry (error `none` when absent),
record `userAnswer`/`correctness` on it, then prune follow-ups — a
low-scored technical Q1 entry deletes `<id>_medium` and `<id>_hard` and
reports `shouldDeleteFollowups`; a low-scored technical medium Q2 entry
deletes `<parentQuestionId>_hard` only. Returns the new list and the
`shouldDeleteFollowups` flag. -/
def updateAskedQuestionAnswer (asked : List AskedQuestion) (qid ua : String)
    (c : Option Int) : Option (List AskedQuestion × Bool) :=
  match asked.find? (fun q => q.id = qid) with
  | none => none
  | some cq0 =>
    let cq := { cq0 with userAnswer := some ua, correctness := c }
    let asked1 := updateFirst asked qid ua c
    if cq.queueType = "Q1" ∧ cq.category = "technical" ∧ lowScore c then
      some (asked1.filter (fun q => q.id ≠ qid ++ "_medium" ∧ q.id ≠ qid ++ "_hard"), true)
    else if cq.queueType = "Q2" ∧ cq.difficulty = some "medium" ∧
            cq.category = "technical" ∧ lowScore c then
      let hardId := cq.parentQuestionId.getD "undefined" ++ "_hard"
      some (asked1.filter (fun q => q.id ≠ hardId), false)
    else
      some (asked1, false)

/-! ## utils/interview.ts : `randomizeQueue1` -/

/-- Substring test on character lists, implementing JavaScript
`String.prototype.includes`. -/
def charsContain (pat : List Char) : List Char → Bool
  | [] => pat.isPrefixOf []
  | c :: rest => pat.isPrefixOf (c :: rest) || charsContain pat rest

/-- JavaScript `s.includes(pat)`. -/
def strIncludes (s pat : String) : Bool :=
  charsContain pat.data s.data

/-- The intro-detection pattern of `randomizeQueue1`. -/
def isIntroQuestion (q : Question) : Bool :=
  strIncludes q.question.toLower "tell me about yourself" ||
  strIncludes q.question.toLower "introduce yourself"

/-- The outro-detection pattern of `randomizeQueue1`. -/
def isOutroQuestion (q : Question) : Bool :=
  strIncludes q.question.toLower "any questions for" ||
  strIncludes q.question.toLower "anything else"

/-- The synthesized default intro question (its random `generateId()` is
passed in). -/
def defaultIntro (iid : String) : Question :=
  { id := iid, question := "Tell me about yourself and your background.",
    category := "non-technical", answer := some "" }

/-- The synthesized default outro question (its random `generateId()` is
passed in). -/
def defaultOutro (oid : String) : Question :=
  { id := oid,
    question := "Do you have any questions for us, or is there anything else you\x27d like to add?",
    category := "non-technical", answer := some "" }

/-- Intro selection of `randomizeQueue1`: first pattern match, else the
first non-technical question, else the synthesized default. -/
def pickIntro (nonTechnical : List Question) (iid : String) : Question :=
  match nonTechnical.find? isIntroQuestion with
  | some q => q
  | none =>
    match nonTechnical with
    | q :: _ => q
    | [] => defaultIntro iid

/-- Outro selection of `randomizeQueue1`: first pattern match, else the
last non-technical question when at least two exist, else the synthesized
default. -/
def pickOutro (nonTechnical : List Question) (oid : String) : Question :=
  match nonTechnical.find? isOutroQuestion with
  | some q => q
  | none =>
    if nonTechnical.length > 1 then nonTechnical.getLastD (defaultOutro oid)
    else defaultOutro oid

/-- `randomizeQueue1` from `src/utils/interview.ts`. The Math.random-driven
in-place Fisher-Yates shuffle of the middle section is modelled by the
permutation-producing parameter `shuffle`; the two potential `generateId()`
draws for synthesized intro/outro are passed as `iid`/`oid`. The
non-technical quota `Math.floor(totalMiddle * 0.20)` equals `totalMiddle / 5`
on natural numbers (for any list length the double rounding of
`totalMiddle * 0.20` never crosses an integer boundary). -/
def randomizeQueue1 (shuffle : List Question → List Question) (iid oid : String)
    (questions : List Question) : List Question :=
  if questions.isEmpty then []
  else
    let technical := questions.filter (fun q => q.category = "technical")
    let nonTechnical := questions.filter (fun q => q.category = "non-technical")
    let intro := pickIntro nonTechnical iid
    let outro := pickOutro nonTechnical oid
    let remainingNonTech := nonTechnical.filter (fun q => q.id ≠ intro.id ∧ q.id ≠ outro.id)
    let totalMiddle := technical.length + remainingNonTech.length
    let maxNonTech := totalMiddle / 5
    let limitedNonTech := remainingNonTech.take maxNonTech
    let middle := shuffle (technical ++ limitedNonTech)
    intro :: middle ++ [outro]

/-! ## Chunk preprocessing (client component + actions.ts store operations) -/

/-- Persisted session-store state relevant to chunk preprocessing: the
stored `q1Questions` list, the stored `askedQuestions` list and the
`preprocessedChunks` set (kept as a list, as in the document). -/
structure StoreState where
  q1Questions : List Question
  askedQuestions : List AskedQuestion
  preprocessedChunks : List Nat
deriving Repr, DecidableEq

/-- `addAskedQuestion` from
`src/app/assessment/technical-interview/actions.ts`: splice the entry
immediately after `insertAfter` when that id is found, otherwise append at
the end; with no `insertAfter`, append at the end. No duplicate check is
performed. -/
def addAskedQuestion (asked : List AskedQuestion) (q : AskedQuestion)
    (insertAfter : Option String) : List AskedQuestion :=
  match insertAfter with
  | some pid =>
    match asked.findIdx? (fun e => e.id = pid) with
    | some i => asked.take (i + 1) ++ q :: asked.drop (i + 1)
    | none => asked ++ [q]
  | none => asked ++ [q]

/-- `markChunkPreprocessed` from `actions.ts`: `$addToSet` on the
`preprocessedChunks` array. -/
def markChunkPreprocessed (st : StoreState) (n : Nat) : StoreState :=
  if st.preprocessedChunks.contains n then st
  else { st with preprocessedChunks := st.preprocessedChunks ++ [n] }

/-- A generated queue-2 follow-up as returned by `generateQ2Questions`
(its id is the parent id with the deterministic `_medium`/`_hard` suffix,
added by the caller below). -/
structure GenQ2 where
  question : String
  answer : String
  source_urls : List String
deriving Repr, DecidableEq

/-- Oracle outcomes of the per-question external calls inside
`preprocessChunk`: the `preprocessQuestion` reference-answer generation
(success with a truthy answer), the three TTS uploads, and the
`generateQ2Questions` call (optional medium and hard payloads on
success). -/
structure PreprocessOracle where
  idealAnswer : Option (String × List String) := none
  audio : Option String := none
  q2 : Option (Option GenQ2 × Option GenQ2) := none
  mediumAudio : Option String := none
  hardAudio : Option String := none

/-- One iteration of the `preprocessChunk` loop for one chunk question:
store the Q1 entry (appended, no duplicate check), then, for a technical
question with a generated reference answer, store the generated medium and
hard follow-ups (also appended: the call passes no `insertAfterQuestionId`). -/
def processOne (st : StoreState) (q : Question) (o : PreprocessOracle) : StoreState :=
  let answer := if q.category = "technical" then o.idealAnswer else none
  let q1entry : AskedQuestion :=
    { id := q.id, question := q.question, category := q.category,
      difficulty := q.difficulty, queueType := "Q1", preprocessed := true,
      answer := answer.map (fun a => a.1),
      source_urls := (answer.map (fun a => a.2)).getD [],
      audioUrl := o.audio }
  let st1 := { st with askedQuestions := addAskedQuestion st.askedQuestions q1entry none }
  if q.category = "technical" ∧ answer.isSome then
    match o.q2 with
    | none => st1
    | some (mq, hq) =>
      let st2 :=
        match mq with
        | some m =>
          let mentry : AskedQuestion :=
            { id := q.id ++ "_medium", question := m.question,
              category := "technical", difficulty := some "medium",
              queueType := "Q2", parentQuestionId := some q.id,
              preprocessed := true, answer := some m.answer,
              source_urls := m.source_urls, audioUrl := o.mediumAudio }
          { st1 with askedQuestions := addAskedQuestion st1.askedQuestions mentry none }
        | none => st1
      match hq with
      | some h =>
        let hentry : AskedQuestion :=
          { id := q.id ++ "_hard", question := h.question,
            category := "technical", difficulty := some "hard",
            queueType := "Q2", parentQuestionId := some q.id,
            preprocessed := true, answer := some h.answer,
            source_urls := h.source_urls, audioUrl := o.hardAudio }
        { st2 with askedQuestions := addAskedQuestion st2.askedQuestions hentry none }
      | none => st2
  else st1

/-- `preprocessChunk` from the interview client component: bail out when a
run is already in flight (single-flight guard), fetch the chunk slice
`q1Questions.slice(5n, 5n+5)` via `getQ1QuestionsForChunk`, bail out when
it is empty, process every question of the slice in order, then mark the
chunk preprocessed. The persisted `preprocessedChunks` set is never
consulted here. -/
def preprocessChunk (oracle : Question → PreprocessOracle) (st : StoreState)
    (chunkNumber : Nat) (inFlight : Bool) : StoreState :=
  if inFlight then st
  else
    let chunkQs := (st.q1Questions.drop (chunkNumber * 5)).take 5
    if chunkQs.isEmpty then st
    else markChunkPreprocessed (chunkQs.foldl (fun s q => processOne s q (oracle q)) st) chunkNumber

/-- The preprocessing trigger condition evaluated before each question in
the interview client (`nextChunkExists && nextChunkNotPreprocessed &&
!preprocessingInProgressRef.current`). -/
def shouldTriggerPreprocess (st : StoreState) (n : Nat) (inFlight : Bool) : Bool :=
  decide (n * 5 < st.q1Questions.length) && !(st.preprocessedChunks.contains n) && !inFlight

/-- Concrete store used to exercise re-running `preprocessChunk` on an
already-committed chunk: chunk 0 holds one (non-technical) question whose
entry is already stored, and chunk 0 is already in the persisted set. -/
def storeC9 : StoreState :=
  { q1Questions := [{ id := "q1", question := "Q?", category := "non-technical" }],
    askedQuestions := [{ id := "q1", question := "Q?", category := "non-technical", queueType := "Q1" }],
    preprocessedChunks := [0] }

/-- Twelve flattened questions, used to exercise the chunking scenario. -/
def sampleQuestions12 : List Question :=
  [{ id := "a", question := "Q", category := "technical" },
   { id := "b", question := "Q", category := "technical" },
   { id := "c", question := "Q", category := "technical" },
   { id := "d", question := "Q", category := "technical" },
   { id := "e", question := "Q", category := "technical" },
   { id := "f", question := "Q", category := "technical" },
   { id := "g", question := "Q", category := "technical" },
   { id := "h", question := "Q", category := "technical" },
   { id := "i", question := "Q", category := "technical" },
   { id := "j", question := "Q", category := "technical" },
   { id := "k", question := "Q", category := "technical" },
   { id := "l", question := "Q", category := "technical" }]

/-- Concrete high-score evaluation for the `next_difficulty` routing. -/
def exEvC2 : EvaluationResult :=
  { score := 85, route_action := "next_difficulty", sources := [], ideal_answer := "ia" }

/-- Concrete generated medium depth question. -/
def exGmC2 : Question :=
  { id := "", question := "GM", category := "technical", difficulty := some "medium" }

/-- Concrete generated hard depth question. -/
def exGhC2 : Question :=
  { id := "", question := "GH", category := "technical", difficulty := some "hard" }

/-- A hard depth question already pending in queue2 (generated at the base
answer) for the answered topic. -/
def exHOldC2 : Question :=
  { id := "h_old", question := "HO", category := "technical", topicId := some "t",
    difficulty := some "hard", parentQuestionId := some "p", queueType := some "Q2" }

/-- Concrete answered medium depth question for the `next_difficulty`
routing. -/
def exCqC2m : Question :=
  { id := "cq_m", question := "CQM", category := "technical", topicId := some "t",
    difficulty := some "medium", parentQuestionId := some "p" }

/-- Concrete engine state at the medium-answer step: the hard follow-up
generated at the base answer is still pending in queue2. -/
def exQueuesC2m : Queues := { queue1 := [], queue2 := [exHOldC2], queue3 := [] }

/-- Concrete stored asked-questions list: a technical primary question, its
two pending follow-ups, one unrelated entry. -/
def exAskedC3 : List AskedQuestion :=
  [{ id := "p", question := "P", category := "technical", queueType := "Q1" },
   { id := "p_medium", question := "M", category := "technical", queueType := "Q2",
     difficulty := some "medium", parentQuestionId := some "p" },
   { id := "p_hard", question := "H", category := "technical", queueType := "Q2",
     difficulty := some "hard", parentQuestionId := some "p" },
   { id := "z", question := "Z", category := "non-technical", queueType := "Q1" }]

/-- The primary entry of `exAskedC3`. -/
def exPC3 : AskedQuestion :=
  { id := "p", question := "P", category := "technical", queueType := "Q1" }

/-- Concrete generated question list: one icebreaker, one technical
question, one closer. -/
def exQuestionsC6 : List Question :=
  [{ id := "1", question := "Tell me about yourself please", category := "non-technical" },
   { id := "2", question := "What is a closure?", category := "technical", topicId := some "t" },
   { id := "3", question := "Anything else?", category := "non-technical" }]

/-- Concrete queue-1 list with one topic for the interleaving claim. -/
def exQ1C10 : List Question :=
  [{ id := "a", question := "A", category := "technical", topicId := some "t1" }]

/-- Concrete queue-2 list: one follow-up on an unmatched topic, one with no
topic — both orphaned. -/
def exQ2C10 : List Question :=
  [{ id := "o", question := "O", category := "technical", topicId := some "t2" },
   { id := "u", question := "U", category := "technical" }]

/-! ## Theorems -/

/-- Auxiliary: appending a question under its own key makes the map entry
grow by that question at the end. -/
theorem lookupMap_addToMap_self (m : List (String × List Question)) (t : String) (q : Question) :
    lookupMap (addToMap m t q) t = some ((lookupMap m t).getD [] ++ [q]) := by
  induction m with
  | nil => simp [addToMap, lookupMap]
  | cons kv rest ih =>
    obtain ⟨k, v⟩ := kv
    by_cases h : k = t
    · subst h
      simp [addToMap, lookupMap]
    · rw [addToMap, if_neg h, lookupMap, if_neg h, lookupMap, if_neg h]
      exact ih

/-- Auxiliary: appending under a different key leaves a lookup unchanged. -/
theorem lookupMap_addToMap_ne (m : List (String × List Question)) (t u : String) (q : Question)
    (h : t ≠ u) : lookupMap (addToMap m t q) u = lookupMap m u := by
  induction m with
  | nil => simp [addToMap, lookupMap, h]
  | cons kv rest ih =>
    obtain ⟨k, v⟩ := kv
    by_cases hk : k = t
    · subst hk
      rw [addToMap, if_pos rfl, lookupMap, if_neg h, lookupMap, if_neg h]
    · rw [addToMap, if_neg hk, lookupMap, lookupMap]
      by_cases hku : k = u
      · rw [if_pos hku, if_pos hku]
      · rw [if_neg hku, if_neg hku]
        exact ih

/-- Auxiliary: the follow-up map built over queue-2 holds, under each
nonempty topic, exactly the queue-2 entries carrying that topic, in order. -/
theorem lookup_build_aux (q2 : List Question) (m : List (String × List Question))
    (t : String) (ht : t ≠ "") :
    (lookupMap (q2.foldl addIfTopical m) t).getD [] =
      (lookupMap m t).getD [] ++ q2.filter (fun q => q.topicId = some t) := by
  induction q2 generalizing m with
  | nil => simp
  | cons q rest ih =>
    rw [List.foldl_cons]
    cases hq : q.topicId with
    | none =>
      rw [List.filter_cons_of_neg (by simp [hq])]
      rw [show addIfTopical m q = m by rw [addIfTopical, hq]; rfl]
      exact ih m
    | some u =>
      by_cases hu : u.isEmpty
      · have hu0 : u = "" := (String.isEmpty_iff u).mp hu
        subst hu0
        rw [List.filter_cons_of_neg (by simp [hq, Ne.symm ht])]
        rw [show addIfTopical m q = m by rw [addIfTopical, hq]; rfl]
        exact ih m
      · have hstep : addIfTopical m q = addToMap m u q := by
          rw [addIfTopical, hq]
          simp [truthyS, Bool.eq_false_iff.mpr hu]
        rw [hstep]
        by_cases hut : u = t
        · subst hut
          rw [List.filter_cons_of_pos (by simp [hq])]
          rw [ih (addToMap m u q)]
          rw [lookupMap_addToMap_self]
          simp
        · rw [List.filter_cons_of_neg (by simp [hq, hut])]
          rw [ih (addToMap m u q)]
          rw [lookupMap_addToMap_ne m u t q hut]

/-- C10: `interleaveQueues` emits each queue-1 question followed
immediately by exactly the queue-2 entries carrying its topic; queue-2
entries with no topic or with a topic no queue-1 entry carries are silently
dropped, so the output can be shorter than the combined input length
(witnessed on the concrete orphan example). -/
theorem interleaveQueues_spec (queue1 queue2 : List Question)
    (h1 : ∀ q ∈ queue1, q.topicId ≠ some "") :
    (interleaveQueues queue1 queue2 =
      queue1.flatMap (fun q1 => q1 :: (match q1.topicId with
        | some t => queue2.filter (fun q => q.topicId = some t)
        | none => []))) ∧
    (interleaveQueues exQ1C10 exQ2C10).length < exQ1C10.length + exQ2C10.length := by
  constructor
  · rw [interleaveQueues]
    induction queue1 with
    | nil => rfl
    | cons q1 rest ih =>
      rw [List.foldr_cons, List.flatMap_cons]
      rw [ih (fun q hq => h1 q (List.mem_cons_of_mem _ hq))]
      congr 1
      cases hq : q1.topicId with
      | none => simp [followUpsFor, truthyS, hq]
      | some t =>
        have ht : t ≠ "" := by
          intro h
          subst h
          exact h1 q1 (List.mem_cons_self _ _) hq
        have hE : t.isEmpty = false := by
          rw [Bool.eq_false_iff]
          intro h
          exact ht ((String.isEmpty_iff t).mp h)
        rw [followUpsFor, hq]
        simp only [truthyS, hE, Bool.not_false, if_true, reduceIte, Option.getD_some]
        exact congrArg _ (lookup_build_aux queue2 [] t ht)
  · decide

/-- Witness for C10: the flattening equality at the concrete orphan
example. -/
theorem interleaveQueues_spec_witness :
    (∀ q ∈ exQ1C10, q.topicId ≠ some "") ∧
    interleaveQueues exQ1C10 exQ2C10 =
      exQ1C10.flatMap (fun q1 => q1 :: (match q1.topicId with
        | some t => exQ2C10.filter (fun q => q.topicId = some t)
        | none => [])) :=
  ⟨by decide, (interleaveQueues_spec exQ1C10 exQ2C10 (by decide)).1⟩

/-- Auxiliary: `getLastD` of a nonempty list is a member of it. -/
theorem getLastD_mem (l : List Question) (d : Question) (h : l ≠ []) :
    l.getLastD d ∈ l := by
  induction l with
  | nil => exact absurd rfl h
  | cons a rest ih =>
    cases rest with
    | nil => simp [List.getLastD]
    | cons b tl =>
      rw [List.getLastD_cons]
      exact List.mem_cons_of_mem _ (ih (by simp))

/-- Auxiliary: the selected intro is non-technical whenever the pool is. -/
theorem pickIntro_category (pool : List Question) (iid : String)
    (hpool : ∀ q ∈ pool, q.category = "non-technical") :
    (pickIntro pool iid).category = "non-technical" := by
  rw [pickIntro.eq_def]
  cases hfind : pool.find? isIntroQuestion with
  | some q => exact hpool q (List.mem_of_find?_eq_some hfind)
  | none =>
    cases pool with
    | nil => rfl
    | cons a rest => exact hpool a (List.mem_cons_self a rest)

/-- Auxiliary: the selected outro is non-technical whenever the pool is. -/
theorem pickOutro_category (pool : List Question) (oid : String)
    (hpool : ∀ q ∈ pool, q.category = "non-technical") :
    (pickOutro pool oid).category = "non-technical" := by
  rw [pickOutro.eq_def]
  cases hfind : pool.find? isOutroQuestion with
  | some q => exact hpool q (List.mem_of_find?_eq_some hfind)
  | none =>
    by_cases hlen : pool.length > 1
    · rw [if_pos hlen]
      exact hpool _ (getLastD_mem pool _ (by intro h; subst h; simp at hlen))
    · rw [if_neg hlen]
      rfl

/-- C6: for any nonempty input and any shuffle behaving as a permutation,
`randomizeQueue1` puts a non-technical question first and last, keeps every
technical question of the input, and bounds the non-technical questions
strictly between the pinned ends by
`floor(0.20 * (technical count + non-intro/outro non-technical count))`. -/
theorem randomizeQueue1_shape (shuffle : List Question → List Question) (iid oid : String)
    (questions : List Question) (hne : questions ≠ [])
    (hperm : ∀ l, (shuffle l).Perm l) :
    (∃ i, (randomizeQueue1 shuffle iid oid questions).head? = some i ∧
       i.category = "non-technical") ∧
    (∃ o, (randomizeQueue1 shuffle iid oid questions).getLast? = some o ∧
       o.category = "non-technical") ∧
    (∀ q ∈ questions, q.category = "technical" →
       q ∈ randomizeQueue1 shuffle iid oid questions) ∧
    (((randomizeQueue1 shuffle iid oid questions).drop 1).dropLast.countP
        (fun q => q.category = "non-technical") ≤
      ((questions.filter (fun q => q.category = "technical")).length +
        ((questions.filter (fun q => q.category = "non-technical")).filter
          (fun q => q.id ≠ (pickIntro (questions.filter (fun q => q.category = "non-technical")) iid).id ∧
                    q.id ≠ (pickOutro (questions.filter (fun q => q.category = "non-technical")) oid).id)).length) / 5) := by
  have hE : questions.isEmpty = false := by
    cases questions with
    | nil => exact absurd rfl hne
    | cons a l => rfl
  have hres : randomizeQueue1 shuffle iid oid questions =
      pickIntro (questions.filter (fun q => q.category = "non-technical")) iid ::
      shuffle ((questions.filter (fun q => q.category = "technical")) ++
        ((questions.filter (fun q => q.category = "non-technical")).filter
          (fun q => q.id ≠ (pickIntro (questions.filter (fun q => q.category = "non-technical")) iid).id ∧
                    q.id ≠ (pickOutro (questions.filter (fun q => q.category = "non-technical")) oid).id)).take
          (((questions.filter (fun q => q.category = "technical")).length +
            ((questions.filter (fun q => q.category = "non-technical")).filter
              (fun q => q.id ≠ (pickIntro (questions.filter (fun q => q.category = "non-technical")) iid).id ∧
                        q.id ≠ (pickOutro (questions.filter (fun q => q.category = "non-technical")) oid).id)).length) / 5)) ++
      [pickOutro (questions.filter (fun q => q.category = "non-technical")) oid] := by
    rw [randomizeQueue1, hE]
    simp only [Bool.false_eq_true, if_false]
  rw [hres]
  set pool := questions.filter (fun q => q.category = "non-technical") with hpoolDef
  set tech := questions.filter (fun q => q.category = "technical") with htechDef
  set remaining := pool.filter
    (fun q => q.id ≠ (pickIntro pool iid).id ∧ q.id ≠ (pickOutro pool oid).id) with hremDef
  set middle := shuffle (tech ++ remaining.take ((tech.length + remaining.length) / 5)) with hmidDef
  have hpool : ∀ q ∈ pool, q.category = "non-technical" := by
    intro q hq
    exact of_decide_eq_true (List.mem_filter.mp hq).2
  refine ⟨⟨_, rfl, pickIntro_category pool iid hpool⟩,
          ⟨_, ?_, pickOutro_category pool oid hpool⟩, ?_, ?_⟩
  · show ((pickIntro pool iid :: middle) ++ [pickOutro pool oid]).getLast? =
        some (pickOutro pool oid)
    exact List.getLast?_concat _
  · intro q hq hqt
    have hq1 : q ∈ tech := List.mem_filter.mpr ⟨hq, decide_eq_true hqt⟩
    have hq2 : q ∈ middle := by
      rw [hmidDef]
      exact (hperm _).mem_iff.mpr (List.mem_append_left _ hq1)
    exact List.mem_cons_of_mem _ (List.mem_append_left _ hq2)
  · have hdrop : ((pickIntro pool iid :: middle ++ [pickOutro pool oid]).drop 1).dropLast = middle := by
      rw [List.drop_one]
      show (middle ++ [pickOutro pool oid]).dropLast = middle
      rw [List.dropLast_concat]
    rw [hdrop]
    have hcount : middle.countP (fun q => decide (q.category = "non-technical")) =
        (tech ++ remaining.take ((tech.length + remaining.length) / 5)).countP
          (fun q => decide (q.category = "non-technical")) :=
      (hperm _).countP_eq _
    rw [hcount, List.countP_append]
    have htech0 : tech.countP (fun q => decide (q.category = "non-technical")) = 0 := by
      rw [List.countP_eq_zero]
      intro q hq
      have : q.category = "technical" := of_decide_eq_true (List.mem_filter.mp hq).2
      simp [this]
    rw [htech0, Nat.zero_add]
    calc (remaining.take ((tech.length + remaining.length) / 5)).countP
          (fun q => decide (q.category = "non-technical"))
        ≤ (remaining.take ((tech.length + remaining.length) / 5)).length :=
          List.countP_le_length _
      _ ≤ (tech.length + remaining.length) / 5 := by
          rw [List.length_take]
          exact Nat.min_le_left _ _

/-- Witness for C6: the three-question scenario with the identity shuffle. -/
theorem randomizeQueue1_shape_witness :
    exQuestionsC6 ≠ [] ∧
    ((∃ i, (randomizeQueue1 id "ii" "oo" exQuestionsC6).head? = some i ∧
       i.category = "non-technical") ∧
    (∃ o, (randomizeQueue1 id "ii" "oo" exQuestionsC6).getLast? = some o ∧
       o.category = "non-technical") ∧
    (∀ q ∈ exQuestionsC6, q.category = "technical" →
       q ∈ randomizeQueue1 id "ii" "oo" exQuestionsC6) ∧
    (((randomizeQueue1 id "ii" "oo" exQuestionsC6).drop 1).dropLast.countP
        (fun q => q.category = "non-technical") ≤
      ((exQuestionsC6.filter (fun q => q.category = "technical")).length +
        ((exQuestionsC6.filter (fun q => q.category = "non-technical")).filter
          (fun q => q.id ≠ (pickIntro (exQuestionsC6.filter (fun q => q.category = "non-technical")) "ii").id ∧
                    q.id ≠ (pickOutro (exQuestionsC6.filter (fun q => q.category = "non-technical")) "oo").id)).length) / 5)) :=
  ⟨by decide,
   randomizeQueue1_shape id "ii" "oo" exQuestionsC6 (by decide)
     (fun l => List.Perm.refl l)⟩

/-- Auxiliary: a string never equals itself extended by a nonempty suffix. -/
theorem str_ne_append_of_ne_empty (s t : String) (ht : t ≠ "") : s ≠ s ++ t := by
  intro h
  have hl := congrArg String.length h
  rw [String.length_append] at hl
  have hlen : t.length = 0 := by omega
  have hdata : t.data = [] := List.length_eq_zero.mp hlen
  exact ht (String.ext hdata)

/-- Auxiliary: entries whose id differs from the answered one survive
`updateFirst` unchanged. -/
theorem mem_updateFirst_of_ne (l : List AskedQuestion) (qid ua : String) (c : Option Int)
    (q : AskedQuestion) (hq : q ∈ l) (hne : q.id ≠ qid) :
    q ∈ updateFirst l qid ua c := by
  induction l with
  | nil => cases hq
  | cons a rest ih =>
    rcases List.mem_cons.mp hq with hq | hq
    · subst hq
      rw [updateFirst, if_neg hne]
      exact List.mem_cons_self _ _
    · rw [updateFirst]
      by_cases h : a.id = qid
      · rw [if_pos h]
        exact List.mem_cons_of_mem _ hq
      · rw [if_neg h]
        exact List.mem_cons_of_mem _ (ih hq)

/-- Auxiliary: the found entry, updated with the recorded answer, is in the
`updateFirst` result. -/
theorem updated_mem_updateFirst (l : List AskedQuestion) (qid ua : String) (c : Option Int)
    (cq : AskedQuestion) (hfind : l.find? (fun q => q.id = qid) = some cq) :
    { cq with userAnswer := some ua, correctness := c } ∈ updateFirst l qid ua c := by
  induction l with
  | nil => cases hfind
  | cons a rest ih =>
    by_cases h : a.id = qid
    · rw [List.find?_cons_of_pos _ (by simpa using h)] at hfind
      injection hfind with hfind
      subst hfind
      rw [updateFirst, if_pos h]
      exact List.mem_cons_self _ _
    · rw [List.find?_cons_of_neg _ (by simpa using h)] at hfind
      rw [updateFirst, if_neg h]
      exact List.mem_cons_of_mem _ (ih hfind)

/-- Auxiliary: the entry found by id carries that id. -/
theorem find?_id_eq (l : List AskedQuestion) (qid : String) (cq : AskedQuestion)
    (hfind : l.find? (fun q => q.id = qid) = some cq) : cq.id = qid := by
  have h := List.find?_some hfind
  simpa using h

/-- C3: recording a below-50 answer on a technical Q1 entry removes from
the stored list exactly the entries with ids `<id>_medium` and `<id>_hard`
(none survive, every other entry survives) and updates the answered entry
in place, reporting `shouldDeleteFollowups`; recording a below-50 answer on
a technical medium Q2 entry removes only `<parentQuestionId>_hard`,
everything else (the medium itself included) surviving with the answered
entry updated in place. -/
theorem updateAskedQuestionAnswer_pruning (asked : List AskedQuestion) (qid ua : String)
    (cv : Int) (cq : AskedQuestion)
    (hfind : asked.find? (fun q => q.id = qid) = some cq)
    (hlow : cv < 50) (hcat : cq.category = "technical") :
    (cq.queueType = "Q1" →
      ∃ l, updateAskedQuestionAnswer asked qid ua (some cv) = some (l, true) ∧
        (∀ q ∈ l, q.id ≠ qid ++ "_medium" ∧ q.id ≠ qid ++ "_hard") ∧
        (∀ q ∈ asked, q.id ≠ qid ++ "_medium" → q.id ≠ qid ++ "_hard" →
          q.id ≠ qid → q ∈ l) ∧
        { cq with userAnswer := some ua, correctness := some cv } ∈ l) ∧
    (∀ p, cq.queueType = "Q2" → cq.difficulty = some "medium" →
      cq.parentQuestionId = some p → qid ≠ p ++ "_hard" →
      ∃ l, updateAskedQuestionAnswer asked qid ua (some cv) = some (l, false) ∧
        (∀ q ∈ l, q.id ≠ p ++ "_hard") ∧
        (∀ q ∈ asked, q.id ≠ p ++ "_hard" → q.id ≠ qid → q ∈ l) ∧
        { cq with userAnswer := some ua, correctness := some cv } ∈ l) := by
  have hid : cq.id = qid := find?_id_eq asked qid cq hfind
  have hls : lowScore (some cv) = true := by simp [lowScore, hlow]
  constructor
  · intro hq1
    refine ⟨(updateFirst asked qid ua (some cv)).filter
        (fun q => q.id ≠ qid ++ "_medium" ∧ q.id ≠ qid ++ "_hard"), ?_, ?_, ?_, ?_⟩
    · simp [updateAskedQuestionAnswer, hfind, hq1, hcat, hls]
    · intro q hq
      have := (List.mem_filter.mp hq).2
      exact of_decide_eq_true this
    · intro q hq h1 h2 h3
      exact List.mem_filter.mpr
        ⟨mem_updateFirst_of_ne asked qid ua (some cv) q hq h3, decide_eq_true ⟨h1, h2⟩⟩
    · refine List.mem_filter.mpr
        ⟨updated_mem_updateFirst asked qid ua (some cv) cq hfind, decide_eq_true ⟨?_, ?_⟩⟩
      · show cq.id ≠ qid ++ "_medium"
        rw [hid]
        exact str_ne_append_of_ne_empty qid "_medium" (by decide)
      · show cq.id ≠ qid ++ "_hard"
        rw [hid]
        exact str_ne_append_of_ne_empty qid "_hard" (by decide)
  · intro p hq2 hmed hpar hqid
    refine ⟨(updateFirst asked qid ua (some cv)).filter
        (fun q => q.id ≠ p ++ "_hard"), ?_, ?_, ?_, ?_⟩
    · simp [updateAskedQuestionAnswer, hfind, hq2, hmed, hcat, hls, hpar]
    · intro q hq
      exact of_decide_eq_true (List.mem_filter.mp hq).2
    · intro q hq h1 h2
      exact List.mem_filter.mpr
        ⟨mem_updateFirst_of_ne asked qid ua (some cv) q hq h2, decide_eq_true h1⟩
    · refine List.mem_filter.mpr
        ⟨updated_mem_updateFirst asked qid ua (some cv) cq hfind, decide_eq_true ?_⟩
      show cq.id ≠ p ++ "_hard"
      rw [hid]
      exact hqid

/-- Witness for C3: the primary technical question of `exAskedC3` scored 40. -/
theorem updateAskedQuestionAnswer_pruning_witness :
    (exAskedC3.find? (fun q => q.id = "p") = some exPC3 ∧ (40 : Int) < 50 ∧
      exPC3.category = "technical" ∧ exPC3.queueType = "Q1") ∧
    (∃ l, updateAskedQuestionAnswer exAskedC3 "p" "bad answer" (some 40) = some (l, true) ∧
      (∀ q ∈ l, q.id ≠ "p" ++ "_medium" ∧ q.id ≠ "p" ++ "_hard") ∧
      (∀ q ∈ exAskedC3, q.id ≠ "p" ++ "_medium" → q.id ≠ "p" ++ "_hard" →
        q.id ≠ "p" → q ∈ l) ∧
      { exPC3 with userAnswer := some "bad answer", correctness := some (40 : Int) } ∈ l) :=
  ⟨⟨by decide, by decide, rfl, rfl⟩,
   (updateAskedQuestionAnswer_pruning exAskedC3 "p" "bad answer" 40 exPC3
     (by decide) (by decide) rfl).1 rfl⟩

/-- C2 counterexample: on a graded `medium` technical answer routed
`next_difficulty` while the hard follow-up generated at the base answer is
still pending in queue2, `find()` returns that pending entry first, so the
code moves the previously generated hard question to the front of queue1
and the newly generated hard question stays in queue2 — not, as claimed,
the newly generated one. -/
theorem analyzeAnswer_medium_moves_pending_hard :
    analyzeAnswer "ia" "a good answer" exQueuesC2m exCqC2m (some exEvC2) .err
        (.parsed [exGmC2, exGhC2]) ["i1", "i2"] =
      { updatedQueues := some
          { queue1 := [exHOldC2],
            queue2 := [{ exGmC2 with
                topicId := some "t", parentQuestionId := some "cq_m",
                id := "i1", queueType := some "Q2" },
              { exGhC2 with
                topicId := some "t", parentQuestionId := some "cq_m",
                id := "i2", queueType := some "Q2" }],
            queue3 := [] },
        correctness := some 85, evaluation := some exEvC2 } ∧
    exHOldC2 ≠ { exGhC2 with
      topicId := some "t", parentQuestionId := some "cq_m",
      id := "i2", queueType := some "Q2" } := by
  constructor
  · decide
  · decide

/-- C2 amended: for a graded technical answer routed `next_difficulty` (or
scored at least 50, outside the remediation branch), when the queue-2
generation call returns a medium and a hard question, both are tagged with
the parent's topic and id and appended to queue2; with no difficulty on the
answered question and no depth entry pending for the topic, the newly
generated medium moves to the front of queue1 (only the hard one staying in
queue2); with difficulty `medium`, the code moves the *first* queue2 entry
of that topic with difficulty hard — when one is already pending, the
previously generated hard, while the newly generated hard remains in
queue2. -/
theorem analyzeAnswer_next_difficulty_routing
    (correctAnswer userAnswer : String) (queues : Queues) (cq : Question)
    (ev : EvaluationResult) (fr : FollowupReply) (gm gh : Question)
    (id0 id1 : String) (rest : List String) (t : String)
    (hca : isBlank correctAnswer = false) (hua : isBlank userAnswer = false)
    (hnott : ¬(ev.route_action = "followup" ∨ ev.score ≤ 10))
    (hroute : ev.route_action = "next_difficulty" ∨ ev.score ≥ 50)
    (hcat : cq.category = "technical")
    (ht : cq.topicId = some t) (hte : t ≠ "")
    (hgm : gm.difficulty = some "medium") (hgh : gh.difficulty = some "hard")
    (hid : id0 ≠ id1)
    (hfresh : ∀ q ∈ queues.queue2, q.id ≠ id0 ∧ q.id ≠ id1) :
    (cq.difficulty = none → (∀ q ∈ queues.queue2, q.topicId ≠ some t) →
      analyzeAnswer correctAnswer userAnswer queues cq (some ev) fr
          (.parsed [gm, gh]) (id0 :: id1 :: rest) =
        { updatedQueues := some
            { queue1 := { gm with
                topicId := some t, parentQuestionId := some cq.id,
                id := id0, queueType := some "Q2" } :: queues.queue1,
              queue2 := queues.queue2 ++ [{ gh with
                topicId := some t, parentQuestionId := some cq.id,
                id := id1, queueType := some "Q2" }],
              queue3 := queues.queue3 },
          correctness := some ev.score, evaluation := some ev }) ∧
    (∀ hOld, cq.difficulty = some "medium" →
      queues.queue2.find? (fun q => q.topicId = some t ∧ q.difficulty = some "hard") =
        some hOld →
      analyzeAnswer correctAnswer userAnswer queues cq (some ev) fr
          (.parsed [gm, gh]) (id0 :: id1 :: rest) =
        { updatedQueues := some
            { queue1 := hOld :: queues.queue1,
              queue2 := queues.queue2.filter (fun q => q.id ≠ hOld.id) ++
                [{ gm with
                    topicId := some t, parentQuestionId := some cq.id,
                    id := id0, queueType := some "Q2" },
                 { gh with
                    topicId := some t, parentQuestionId := some cq.id,
                    id := id1, queueType := some "Q2" }],
              queue3 := queues.queue3 },
          correctness := some ev.score, evaluation := some ev }) := by
  have hE : t.isEmpty = false := by
    rw [Bool.eq_false_iff]
    intro h
    exact hte ((String.isEmpty_iff t).mp h)
  have hT : truthyS cq.topicId = true := by
    rw [ht]
    simp [truthyS, hE]
  have hfind2none :
      ∀ p : Question → Bool, (∀ q ∈ queues.queue2, p q = false) →
        queues.queue2.find? p = none := by
    intro p hp
    exact List.find?_eq_none.mpr (fun x hx => by simp [hp x hx])
  constructor
  · intro hdiff hclean
    simp only [analyzeAnswer, hca, hua, Bool.or_self, Bool.false_eq_true, if_false,
      if_neg hnott, if_pos hroute, hcat, if_true, reduceIte, hT, ht, Option.getD_some,
      tagQ2, List.headD_cons, List.tail_cons, hdiff, truthyS, Bool.not_false, hE]
    rw [List.find?_append]
    rw [hfind2none _ (fun q hq => by simp [hclean q hq])]
    rw [List.find?_cons_of_pos _ (by simp [hgm])]
    simp only [Option.none_or]
    rw [List.filter_append]
    rw [List.filter_eq_self.mpr (fun q hq => by simp [(hfresh q hq).1])]
    simp [hid, Ne.symm hid]
  · intro hOld hdiff hfindOld
    have hmem : hOld ∈ queues.queue2 := List.mem_of_find?_eq_some hfindOld
    have h0 : id0 ≠ hOld.id := Ne.symm (hfresh hOld hmem).1
    have h1 : id1 ≠ hOld.id := Ne.symm (hfresh hOld hmem).2
    simp only [analyzeAnswer, hca, hua, Bool.or_self, Bool.false_eq_true, if_false,
      if_neg hnott, if_pos hroute, hcat, if_true, reduceIte, hT, ht, Option.getD_some,
      tagQ2, List.headD_cons, List.tail_cons, hdiff, truthyS, Bool.not_true, hE,
      show ("medium" : String).isEmpty = false from rfl, Bool.not_false, Bool.not_true,
      Bool.false_eq_true, if_false, reduceIte]
    rw [List.find?_append, hfindOld]
    simp only [Option.or]
    rw [List.filter_append]
    simp [h0, h1]

/-- Witness for C2 amended: score 85 with `next_difficulty` on the medium
follow-up while the base answer's hard follow-up is still pending moves
that pending hard entry to the front of queue1; both newly generated
questions stay in queue2. -/
theorem analyzeAnswer_next_difficulty_routing_witness :
    (isBlank "ia" = false ∧ isBlank "a good answer" = false ∧
      ¬(exEvC2.route_action = "followup" ∨ exEvC2.score ≤ 10) ∧
      (exEvC2.route_action = "next_difficulty" ∨ exEvC2.score ≥ 50) ∧
      exCqC2m.category = "technical" ∧ exCqC2m.topicId = some "t" ∧ ("t" : String) ≠ "" ∧
      exGmC2.difficulty = some "medium" ∧ exGhC2.difficulty = some "hard" ∧
      ("i1" : String) ≠ "i2" ∧ exCqC2m.difficulty = some "medium" ∧
      exQueuesC2m.queue2.find?
        (fun q => q.topicId = some "t" ∧ q.difficulty = some "hard") = some exHOldC2) ∧
    analyzeAnswer "ia" "a good answer" exQueuesC2m exCqC2m (some exEvC2) .err
        (.parsed [exGmC2, exGhC2]) ["i1", "i2"] =
      { updatedQueues := some
          { queue1 := exHOldC2 :: exQueuesC2m.queue1,
            queue2 := exQueuesC2m.queue2.filter (fun q => q.id ≠ exHOldC2.id) ++
              [{ exGmC2 with
                  topicId := some "t", parentQuestionId := some exCqC2m.id,
                  id := "i1", queueType := some "Q2" },
               { exGhC2 with
                  topicId := some "t", parentQuestionId := some exCqC2m.id,
                  id := "i2", queueType := some "Q2" }],
            queue3 := exQueuesC2m.queue3 },
        correctness := some exEvC2.score, evaluation := some exEvC2 } :=
  ⟨⟨by decide, by decide, by decide, Or.inl rfl, rfl, rfl, by decide, rfl, rfl,
    by decide, rfl, by decide⟩,
   (analyzeAnswer_next_difficulty_routing "ia" "a good answer" exQueuesC2m exCqC2m
     exEvC2 .err exGmC2 exGhC2 "i1" "i2" [] "t" (by decide) (by decide) (by decide)
     (Or.inl rfl) rfl rfl (by decide) rfl rfl (by decide)
     (fun q hq => by simp [exQueuesC2m, exHOldC2] at hq; simp [hq])).2
     exHOldC2 rfl (by decide)⟩

/-- C8: for chunk size `s > 0`, `splitIntoChunks` returns `ceil(n/s)` chunks,
chunk `N` (0-indexed) holding exactly the questions at indices
`[N*s, min((N+1)*s, n))` of the input order; in particular 12 questions at
size 5 give chunks 0, 1, 2 of sizes 5, 5, 2. -/
theorem splitIntoChunks_covers (questions : List Question) (s : Nat) (hs : 0 < s) :
    (splitIntoChunks questions s).length = (questions.length + s - 1) / s ∧
    (∀ N (hN : N < (splitIntoChunks questions s).length),
      ((splitIntoChunks questions s).get ⟨N, hN⟩).chunkNumber = N ∧
      ((splitIntoChunks questions s).get ⟨N, hN⟩).questions.length =
        min s (questions.length - N * s) ∧
      ∀ j : Nat, ((splitIntoChunks questions s).get ⟨N, hN⟩).questions[j]? =
        if j < s then questions[N * s + j]? else none) ∧
    (questions.length = 12 → s = 5 →
      (splitIntoChunks questions s).map (fun c => (c.chunkNumber, c.questions.length)) =
        [(0, 5), (1, 5), (2, 2)]) := by
  refine ⟨by simp [splitIntoChunks], ?_, ?_⟩
  · intro N hN
    refine ⟨by simp [splitIntoChunks], by simp [splitIntoChunks], ?_⟩
    intro j
    simp only [splitIntoChunks, List.get_eq_getElem, List.getElem_map]
    rw [List.getElem_range]
    rw [List.getElem?_take, List.getElem?_drop]
  · intro h12 h5
    subst h5
    simp [splitIntoChunks, h12, List.range_succ]

/-- Witness for C8: the 12-question, size-5 scenario. -/
theorem splitIntoChunks_covers_witness :
    0 < 5 ∧ sampleQuestions12.length = 12 ∧
    (splitIntoChunks sampleQuestions12 5).map (fun c => (c.chunkNumber, c.questions.length)) =
      [(0, 5), (1, 5), (2, 2)] :=
  ⟨by decide, rfl, (splitIntoChunks_covers sampleQuestions12 5 (by decide)).2.2 rfl rfl⟩

/-- C7: when the reference answer or the candidate answer is empty or
whitespace-only, `analyzeAnswer` returns the empty record: no correctness
score, no updated queues, no evaluation — so no follow-up of any kind is
spawned and the engine simply advances. -/
theorem analyzeAnswer_skips_on_blank_answers
    (correctAnswer userAnswer : String) (queues : Queues) (cq : Question)
    (evaluation : Option EvaluationResult) (fr : FollowupReply) (q2r : Q2Reply)
    (ids : List String)
    (h : isBlank correctAnswer ∨ isBlank userAnswer) :
    analyzeAnswer correctAnswer userAnswer queues cq evaluation fr q2r ids =
      { updatedQueues := none, correctness := none, evaluation := none } := by
  unfold analyzeAnswer
  rcases h with h | h <;> simp [h]

/-- Witness for C7: a whitespace-only candidate answer at a concrete state. -/
theorem analyzeAnswer_skips_on_blank_answers_witness :
    (isBlank "   " ∨ isBlank "   ") ∧
    analyzeAnswer "An ideal answer" "   "
        { queue1 := [], queue2 := [], queue3 := [] }
        { id := "cq", question := "Q", category := "technical" }
        none .err .err [] =
      { updatedQueues := none, correctness := none, evaluation := none } :=
  ⟨Or.inl (by decide),
   analyzeAnswer_skips_on_blank_answers "An ideal answer" "   "
     { queue1 := [], queue2 := [], queue3 := [] }
     { id := "cq", question := "Q", category := "technical" }
     none .err .err [] (Or.inr (by decide))⟩

/-- C1: for a graded answer routed `followup` (or scored at most 10), when
the remediation-generation call returns a parseable question and the
answered question carries a topic, `analyzeAnswer` appends exactly one new
entry to queue3 — category `followup`, `parentQuestion` the answered
question's id, `topicId` inherited — and removes every queue2 entry sharing
that topic (none survive, all others survive), leaving queue1 untouched,
regardless of how many queue2 entries existed. -/
theorem analyzeAnswer_followup_routing
    (correctAnswer userAnswer : String) (queues : Queues) (cq : Question)
    (ev : EvaluationResult) (fq : String) (q2r : Q2Reply) (ids : List String) (t : String)
    (hca : isBlank correctAnswer = false) (hua : isBlank userAnswer = false)
    (hroute : ev.route_action = "followup" ∨ ev.score ≤ 10)
    (ht : cq.topicId = some t) (hte : t ≠ "") :
    ∃ e uq,
      analyzeAnswer correctAnswer userAnswer queues cq (some ev) (.parsed fq) q2r ids =
        { updatedQueues := some uq, correctness := some ev.score, evaluation := some ev } ∧
      uq.queue3 = queues.queue3 ++ [e] ∧
      e.category = "followup" ∧ e.parentQuestion = some cq.id ∧ e.topicId = some t ∧
      (∀ q ∈ uq.queue2, q.topicId ≠ some t) ∧
      (∀ q ∈ queues.queue2, q.topicId ≠ some t → q ∈ uq.queue2) ∧
      uq.queue1 = queues.queue1 := by
  have hE : t.isEmpty = false := by
    rw [Bool.eq_false_iff]
    intro h
    exact hte ((String.isEmpty_iff t).mp h)
  have hT : truthyS cq.topicId = true := by
    rw [ht]
    simp [truthyS, hE]
  refine ⟨{ id := ids.headD "", question := fq, category := "followup",
            parentQuestion := some cq.id, topicId := cq.topicId },
          { queues with
              queue2 := queues.queue2.filter (fun q => q.topicId ≠ cq.topicId),
              queue3 := queues.queue3 ++
                [{ id := ids.headD "", question := fq, category := "followup",
                   parentQuestion := some cq.id, topicId := cq.topicId }] },
          ?_, rfl, rfl, rfl, ht, ?_, ?_, rfl⟩
  · simp only [analyzeAnswer, hca, hua, Bool.or_self, Bool.false_eq_true, if_false, hT,
      if_pos hroute, if_true]
  · intro q hq
    rw [ht] at hq
    have hq2 : q ∈ List.filter (fun q => decide (q.topicId ≠ some t)) queues.queue2 := hq
    exact of_decide_eq_true (List.mem_filter.mp hq2).2
  · intro q hq hne
    rw [ht]
    show q ∈ List.filter (fun q => decide (q.topicId ≠ some t)) queues.queue2
    exact List.mem_filter.mpr ⟨hq, decide_eq_true hne⟩

/-- Witness for C1: a very wrong answer routed `followup` at a state with
two depth entries for the answered topic and one for another topic. -/
theorem analyzeAnswer_followup_routing_witness :
    (isBlank "An ideal answer" = false ∧ isBlank "I do not know" = false ∧
      (("followup" : String) = "followup" ∨ (5 : Int) ≤ 10) ∧
      ({ id := "cq", question := "CQ", category := "technical",
         topicId := some "t" } : Question).topicId = some "t" ∧ ("t" : String) ≠ "") ∧
    (∃ e uq,
      analyzeAnswer "An ideal answer" "I do not know"
          { queue1 := [],
            queue2 := [{ id := "d1", question := "D1", category := "technical", topicId := some "t" },
                       { id := "d2", question := "D2", category := "technical", topicId := some "u" },
                       { id := "d3", question := "D3", category := "technical", topicId := some "t" }],
            queue3 := [] }
          { id := "cq", question := "CQ", category := "technical", topicId := some "t" }
          (some { score := 5, route_action := "followup", sources := [], ideal_answer := "ia" })
          (.parsed "Why is that wrong?") .err ["f1"] =
        { updatedQueues := some uq, correctness := some (5 : Int),
          evaluation := some { score := 5, route_action := "followup", sources := [],
                               ideal_answer := "ia" } } ∧
      uq.queue3 = [] ++ [e] ∧
      e.category = "followup" ∧ e.parentQuestion = some "cq" ∧ e.topicId = some "t" ∧
      (∀ q ∈ uq.queue2, q.topicId ≠ some "t") ∧
      (∀ q ∈ [({ id := "d1", question := "D1", category := "technical", topicId := some "t" } : Question),
              { id := "d2", question := "D2", category := "technical", topicId := some "u" },
              { id := "d3", question := "D3", category := "technical", topicId := some "t" }],
        q.topicId ≠ some "t" → q ∈ uq.queue2) ∧
      uq.queue1 = []) :=
  ⟨⟨by decide, by decide, Or.inl rfl, rfl, by decide⟩,
   analyzeAnswer_followup_routing "An ideal answer" "I do not know"
     { queue1 := [],
       queue2 := [{ id := "d1", question := "D1", category := "technical", topicId := some "t" },
                  { id := "d2", question := "D2", category := "technical", topicId := some "u" },
                  { id := "d3", question := "D3", category := "technical", topicId := some "t" }],
       queue3 := [] }
     { id := "cq", question := "CQ", category := "technical", topicId := some "t" }
     { score := 5, route_action := "followup", sources := [], ideal_answer := "ia" }
     "Why is that wrong?" .err ["f1"] "t" (by decide) (by decide) (Or.inl rfl) rfl (by decide)⟩

/-- C4 counterexample: a grading reply whose extracted brace substring fails
`JSON.parse` makes `evaluateAnswer` return `null`, not the conservative
fallback with score 50 and reason "Unable to evaluate" — the claim is false
for this failure mode. -/
theorem evaluateAnswer_badJson_returns_none :
    evaluateAnswer (some "A closure captures variables") (some []) none .badJson = none ∧
    (none : Option EvaluationResult) ≠
      some { score := 50, route_action := "normal_flow", sources := [],
             ideal_answer := "A closure captures variables",
             reason := some "Unable to evaluate" } := by
  constructor
  · rfl
  · intro h; cases h

/-- C4 amended: the fallback carrying reason "Unable to evaluate" is
returned exactly when the grading call itself fails; a reply without a JSON
object yields score 50 and `normal_flow` but no reason; a reply whose JSON
fails to parse yields `none` — and `evaluateAnswer` never propagates the
failure in any of these cases. -/
theorem evaluateAnswer_failure_modes
    (ia : Option String) (su : Option (List String))
    (gen : Option (String × List String)) :
    evaluateAnswer ia su gen .err =
      some { score := 50, route_action := "normal_flow",
             sources := (resolveIdeal ia su gen).2,
             ideal_answer := (resolveIdeal ia su gen).1,
             reason := some "Unable to evaluate" } ∧
    evaluateAnswer ia su gen .noJson =
      some { score := 50, route_action := "normal_flow",
             sources := (resolveIdeal ia su gen).2,
             ideal_answer := (resolveIdeal ia su gen).1,
             reason := none } ∧
    evaluateAnswer ia su gen .badJson = none :=
  ⟨rfl, rfl, rfl⟩

/-- C5 counterexample: a parsed grading reply reporting correctness 0 (a
legal value in 0–100) is not passed through unmodified: the JavaScript
`analysis.correctness || 50` default turns the score into 50. -/
theorem evaluateAnswer_zero_correctness_clamped :
    evaluateAnswer (some "ia") (some []) none
        (.parsed (some 0) (some "followup") (some "totally wrong")) =
      some { score := 50, route_action := "followup", sources := [],
             ideal_answer := "ia", reason := some "totally wrong" } ∧
    (50 : Int) ≠ 0 := by
  constructor
  · rfl
  · decide

/-- C5 amended: for a parsed grading reply whose correctness is an integer
in 1–100 and whose route_action is one of the three contractual values, the
score and route_action are returned unmodified; only a reported 0 falls
back to 50 through the JavaScript `||` default. -/
theorem evaluateAnswer_passthrough
    (ia : Option String) (su : Option (List String))
    (gen : Option (String × List String)) (c : Int) (ra : String)
    (re : Option String) (h1 : 1 ≤ c) (h2 : c ≤ 100)
    (hra : ra = "next_difficulty" ∨ ra = "normal_flow" ∨ ra = "followup") :
    evaluateAnswer ia su gen (.parsed (some c) (some ra) re) =
      some { score := c, route_action := ra,
             sources := (resolveIdeal ia su gen).2,
             ideal_answer := (resolveIdeal ia su gen).1,
             reason := re } := by
  have hc : c ≠ 0 := by omega
  have hraE : ¬ra.isEmpty := by
    rcases hra with h | h | h <;> subst h <;> decide
  simp [evaluateAnswer, jsOrInt, jsOrStr, hc, hraE]

/-- Witness for C5 amended: correctness 85 with route_action
`next_difficulty` is returned unmodified. -/
theorem evaluateAnswer_passthrough_witness :
    (1 ≤ (85 : Int) ∧ (85 : Int) ≤ 100 ∧
      ("next_difficulty" = "next_difficulty" ∨ "next_difficulty" = "normal_flow" ∨
        "next_difficulty" = "followup")) ∧
    evaluateAnswer (some "ia") (some ["https://mdn.dev"]) none
        (.parsed (some 85) (some "next_difficulty") (some "good")) =
      some { score := 85, route_action := "next_difficulty",
             sources := ["https://mdn.dev"], ideal_answer := "ia",
             reason := some "good" } :=
  ⟨⟨by decide, by decide, Or.inl rfl⟩, by
    have h := evaluateAnswer_passthrough (some "ia") (some ["https://mdn.dev"]) none
      85 "next_difficulty" (some "good") (by decide) (by decide) (Or.inl rfl)
    simpa [resolveIdeal, truthyS] using h⟩

/-- C9 counterexample: running `preprocessChunk` for chunk 0 while 0 is
already in the persisted preprocessed set re-appends the chunk's stored
question — the resulting asked-questions list carries a duplicated id, so
the re-run is not a no-op on persisted content. -/
theorem preprocessChunk_rerun_duplicates :
    0 ∈ storeC9.preprocessedChunks ∧
    ¬ ((preprocessChunk (fun _ => {}) storeC9 0 false).askedQuestions.map
        (fun q => q.id)).Nodup := by
  constructor
  · decide
  · decide

/-- C9 amended: `preprocessChunk` itself never consults the persisted
preprocessed set, and a direct re-run for an already-committed chunk
appends the chunk's questions again (`addAskedQuestion` has no duplicate
check); non-duplication holds only because the client trigger condition is
false for every chunk already in the persisted set. -/
theorem preprocessChunk_guard_in_trigger :
    (∀ (st : StoreState) (n : Nat) (fl : Bool),
      n ∈ st.preprocessedChunks → shouldTriggerPreprocess st n fl = false) ∧
    (preprocessChunk (fun _ => {}) storeC9 0 false).askedQuestions.map (fun q => q.id) =
      ["q1", "q1"] := by
  constructor
  · intro st n fl hn
    simp [shouldTriggerPreprocess, hn]
  · decide

/-- Witness for C9 amended: the trigger refuses the already-committed
chunk 0 of the concrete store. -/
theorem preprocessChunk_guard_in_trigger_witness :
    0 ∈ storeC9.preprocessedChunks ∧
    shouldTriggerPreprocess storeC9 0 false = false :=
  ⟨by decide, preprocessChunk_guard_in_trigger.1 storeC9 0 false (by decide)⟩

end Calibr
